import Mathlib

/-
Verification development for the image-gen bulk submission queue.

The definitions below are a shallow embedding of the TypeScript sources:
  - the text sanitizer (src/utils/textSanitizer.ts, sanitizeText),
  - the bulk processing modal (BulkProcessingModal: processBulkItems,
    processItem, updateItemData, the validity filter and credit costs),
  - the credit deduction (useAuth: deductCredits),
  - the persisted bulk-processing state (useBulkProcessing: the useState
    rehydration logic and saveState).

JavaScript strings are modelled as Lean String (lists of characters); the
whitespace character class of the regexes is modelled by the ASCII
whitespace characters. Machine integers do not occur (all counts are small
naturals; timestamps are modelled as Int milliseconds).
-/

namespace ImageGen

/-! ## Text sanitizer (src/utils/textSanitizer.ts) -/

/-- Whitespace class of the JavaScript regexes (ASCII part): space, tab,
newline, carriage return, vertical tab, form feed. -/
def isJsWs (c : Char) : Bool :=
  c = ' ' || c = '\t' || c = '\n' || c = '\r' || c = '\x0b' || c = '\x0c'

/-- Step of sanitizeText: replace double quotes with single quotes. -/
def replaceQuoteChar (c : Char) : Char :=
  if c = '"' then '\x27' else c

/-- Step of sanitizeText: backslash test for the removal filter. -/
def isBackslash (c : Char) : Bool :=
  c = '\\'

/-- Step of sanitizeText: replace newlines with spaces. -/
def nlToSpace (c : Char) : Char :=
  if c = '\n' then ' ' else c

/-- Step of sanitizeText: replace carriage returns with spaces. -/
def crToSpace (c : Char) : Char :=
  if c = '\r' then ' ' else c

/-- Step of sanitizeText: replace tabs with spaces. -/
def tabToSpace (c : Char) : Char :=
  if c = '\t' then ' ' else c

/-- Step of sanitizeText: the global replacement of every maximal run of
whitespace by a single space. A whitespace character that is followed by
more whitespace is dropped; the last whitespace of a run emits one space. -/
def collapseWs : List Char → List Char
  | [] => []
  | [c] => if isJsWs c then [' '] else [c]
  | c :: d :: rest =>
    if isJsWs c then
      if isJsWs d then collapseWs (d :: rest) else ' ' :: collapseWs (d :: rest)
    else
      c :: collapseWs (d :: rest)

/-- Step of sanitizeText: trim leading and trailing whitespace. -/
def jsTrim (l : List Char) : List Char :=
  ((l.dropWhile isJsWs).reverse.dropWhile isJsWs).reverse

/-- The sanitizeText pipeline on the character list, in source order:
replace quotes, remove backslashes, replace newlines, carriage returns and
tabs by spaces, collapse whitespace runs, trim. -/
def sanitizeList (l : List Char) : List Char :=
  jsTrim (collapseWs (((((l.map replaceQuoteChar).filter
    (fun c => !isBackslash c)).map nlToSpace).map crToSpace).map tabToSpace))

/-- sanitizeText from src/utils/textSanitizer.ts, with its guard returning
the empty string for an empty (falsy) input. -/
def sanitizeText (s : String) : String :=
  if s.isEmpty then "" else String.mk (sanitizeList s.data)

/-- Modelled from the spec: the sanitizer described by its words, namely
replace double quotes with single quotes, remove backslashes, collapse
whitespace and newline runs to single spaces, and trim. Used only to be
compared with sanitizeText. -/
def sanitizeTextSpec (s : String) : String :=
  String.mk (jsTrim (collapseWs
    ((s.data.map replaceQuoteChar).filter (fun c => !isBackslash c))))

/-! ## Data model of the bulk queue (BulkProcessingModal) -/

/-- The two template types of the application. -/
inductive TemplateType
  | blog
  | infographic
deriving DecidableEq, Repr

/-- Item status strings of the BulkItem interface. The source string
literal for a failed item is the word error. -/
inductive ItemStatus
  | pending
  | processing
  | completed
  | error
deriving DecidableEq, Repr

/-- The free-text fields of an item (the data object of a BulkItem). Blog
items use title and intro; infographic items use content; both carry the
optional style and colour selections with their custom variants. -/
structure ItemData where
  title : String
  intro : String
  content : String
  style : String
  customStyle : String
  colour : String
  customColour : String
deriving DecidableEq, Repr

/-- A BulkItem of the modal: id (modelled as Nat), template type, field
data, status, the optional result image and the optional error message. -/
structure BulkItem where
  id : Nat
  type : TemplateType
  data : ItemData
  status : ItemStatus
  result : Option String
  errMsg : Option String
deriving DecidableEq, Repr

/-- CREDIT_COSTS of the modal: blog costs 5, infographic costs 10. -/
def CREDIT_COSTS : TemplateType → Nat
  | .blog => 5
  | .infographic => 10

/-- JavaScript truthiness of a trimmed string field: nonempty after trim. -/
def truthyTrim (s : String) : Bool :=
  !(jsTrim s.data).isEmpty

/-- The validity filter of processBulkItems: a blog item needs truthy
trimmed title and intro, an infographic item a truthy trimmed content. -/
def isValidItem (it : BulkItem) : Bool :=
  match it.type with
  | .blog => truthyTrim it.data.title && truthyTrim it.data.intro
  | .infographic => truthyTrim it.data.content

/-- The valid subset of the item list, in order. -/
def validItems (items : List BulkItem) : List BulkItem :=
  items.filter isValidItem

/-- The batch cost computed by processBulkItems: number of valid items
times the per-item credit cost of the template type. -/
def batchCost (items : List BulkItem) (t : TemplateType) : Nat :=
  (validItems items).length * CREDIT_COSTS t

/-- deductCredits of useAuth: fails (returns none, no deduction) when the
balance is below the amount, otherwise returns the reduced balance. -/
def deductCredits (credits amount : Nat) : Option Nat :=
  if credits < amount then none else some (credits - amount)

/-! ## Per-item processing (processItem) and the sequential loop -/

/-- Outcome of the webhook call for one item: a response carrying an image
string, a non-2xx HTTP status, a 2xx response without an image field, or a
network error with its message. -/
inductive WebhookResult
  | ok (image : String)
  | httpError (status : Nat)
  | noImage
  | networkError (msg : String)
deriving DecidableEq, Repr

/-- processItem of the modal, given the webhook outcome: on an image,
status completed and the image stored; on a non-ok response the thrown
HTTP error message is caught; on a missing image field the fixed message;
on a network error that error message. All other fields are spread
through unchanged. -/
def processItem (it : BulkItem) (resp : WebhookResult) : BulkItem :=
  match resp with
  | .ok img => { it with status := .completed, result := some img }
  | .httpError status =>
    { it with status := .error, errMsg := some ("HTTP error! status: " ++ toString status) }
  | .noImage =>
    { it with status := .error, errMsg := some "No image data received from the server" }
  | .networkError msg =>
    { it with status := .error, errMsg := some msg }

/-- The loop body guard of processBulkItems: the item is processed exactly
when it passes the validity check and its status is pending (the source
continues past the item otherwise). -/
def shouldProcess (it : BulkItem) : Bool :=
  isValidItem it && it.status == ItemStatus.pending

/-- Observable events of the loop: the fixed inter-request delay and the
webhook call for an item id. -/
inductive Event
  | delay (ms : Nat)
  | call (id : Nat)
deriving DecidableEq, Repr

/-- Result of the for loop of processBulkItems: the final item list, the
final processedCount, and the trace of delays and calls in order. -/
structure LoopOut where
  items : List BulkItem
  count : Nat
  trace : List Event
deriving DecidableEq, Repr

/-- The for loop of processBulkItems. The webhook is modelled by an oracle
from item id to outcome; i is the index in the full item array (the delay
is awaited when i is positive, mirroring the source test on the array
index), and count is the running processedCount. Skipped items are kept
unchanged; a processed item is replaced by its processItem result and
count is incremented, whether the item completed or failed. -/
def processLoop (oracle : Nat → WebhookResult) :
    List BulkItem → Nat → Nat → LoopOut
  | [], _, count => ⟨[], count, []⟩
  | it :: rest, i, count =>
    if shouldProcess it then
      let pre : List Event := if 0 < i then [.delay 2000] else []
      let it' := processItem it (oracle it.id)
      let out := processLoop oracle rest (i + 1) (count + 1)
      ⟨it' :: out.items, out.count, pre ++ .call it.id :: out.trace⟩
    else
      let out := processLoop oracle rest (i + 1) count
      ⟨it :: out.items, out.count, out.trace⟩

/-- Error outcomes of the pre-processing checks of processBulkItems, in
source order: the no-valid-items warning, the insufficient-credits error,
and the failure notification when deductCredits itself reports failure. -/
inductive StartError
  | noValidItems
  | insufficientCredits
  | debitFailed
deriving DecidableEq, Repr

/-- Full outcome of one processBulkItems invocation: the error if the run
did not start, the resulting item list, the resulting credit balance, the
final processedCount, the event trace, and the imageCount carried by the
aggregate completion notification (present exactly when the run ran). -/
structure BulkOutcome where
  error : Option StartError
  items : List BulkItem
  credits : Nat
  count : Nat
  trace : List Event
  completionImageCount : Option Nat
deriving DecidableEq, Repr

/-- processBulkItems of the modal, for a signed-in user with the given
balance: filter the valid items; if none, stop with the warning; compute
the batch cost and stop with the insufficient-credits error when the
balance is below it; deduct the full cost through deductCredits (which
re-checks the balance) and stop if that fails; otherwise run the loop over
all items from index 0 and emit the completion notification whose
imageCount is the final processedCount. -/
def processBulkItems (items : List BulkItem) (t : TemplateType)
    (credits : Nat) (oracle : Nat → WebhookResult) : BulkOutcome :=
  let valid := validItems items
  if valid.length = 0 then
    ⟨some .noValidItems, items, credits, 0, [], none⟩
  else
    let cost := valid.length * CREDIT_COSTS t
    if credits < cost then
      ⟨some .insufficientCredits, items, credits, 0, [], none⟩
    else
      match deductCredits credits cost with
      | none => ⟨some .debitFailed, items, credits, 0, [], none⟩
      | some credits' =>
        let out := processLoop oracle items 0 0
        ⟨none, out.items, credits', out.count, out.trace, some out.count⟩

/-! ## Item editing (updateItemData) -/

/-- sanitizeFormData applied to the data object: every string field is
sanitized with sanitizeText. -/
def sanitizeItemData (d : ItemData) : ItemData :=
  ⟨sanitizeText d.title, sanitizeText d.intro, sanitizeText d.content,
   sanitizeText d.style, sanitizeText d.customStyle,
   sanitizeText d.colour, sanitizeText d.customColour⟩

/-- updateItemData of the modal: the item with the given id receives the
sanitized data and status pending; every other item is unchanged. -/
def updateItemData (items : List BulkItem) (id : Nat) (d : ItemData) :
    List BulkItem :=
  items.map fun it =>
    if it.id == id then { it with data := sanitizeItemData d, status := .pending }
    else it

/-- The user-facing field update: every input that invokes updateItemData
carries a disabled attribute bound to isProcessing, so while a run is
active the edit cannot fire and the item list is unchanged. -/
def updateItemFields (isProcessing : Bool) (items : List BulkItem)
    (id : Nat) (d : ItemData) : List BulkItem :=
  if isProcessing then items else updateItemData items id d

/-! ## Request payload construction (processItem, handleFormSubmit) -/

/-- The effective style of an item: the trimmed custom style when the
custom option is chosen, the selected style otherwise. -/
def finalStyle (d : ItemData) : String :=
  if d.style = "custom" then String.mk (jsTrim d.customStyle.data) else d.style

/-- The effective colour of an item: the trimmed custom colour when the
custom option is chosen, the selected colour otherwise. -/
def finalColour (d : ItemData) : String :=
  if d.colour = "custom" then String.mk (jsTrim d.customColour.data) else d.colour

/-- The webhook request payload: image_type and image_detail. -/
structure Payload where
  image_type : String
  image_detail : String
deriving DecidableEq, Repr

/-- image_detail as built by the source: the blog base string interpolates
title and intro, the infographic base is the content; then the style
suffix is appended when the effective style is truthy (nonempty), then the
colour suffix likewise. -/
def imageDetail (t : TemplateType) (d : ItemData) : String :=
  let base :=
    match t with
    | TemplateType.blog =>
      "Blog post title: \x27" ++ d.title ++ "\x27, Content: " ++ d.intro
    | TemplateType.infographic => d.content
  let withStyle :=
    if finalStyle d = "" then base else base ++ ", Style: " ++ finalStyle d
  if finalColour d = "" then withStyle
  else withStyle ++ ", Colour: " ++ finalColour d

/-- The payload as built by the source: Featured Image for blog,
Infographic for infographic, with the image detail above. -/
def buildPayload (t : TemplateType) (d : ItemData) : Payload :=
  ⟨match t with
    | TemplateType.blog => "Featured Image"
    | TemplateType.infographic => "Infographic",
   imageDetail t d⟩

/-- Modelled from the spec: the image_detail construction rule as the spec
words it, a base string followed by an optional Style suffix followed by
an optional Colour suffix, each present exactly when set. Used only to be
compared with the source definition. -/
def imageDetailSpec (t : TemplateType) (d : ItemData) : String :=
  (match t with
    | TemplateType.blog =>
      "Blog post title: \x27" ++ d.title ++ "\x27, Content: " ++ d.intro
    | TemplateType.infographic => d.content)
  ++ (if finalStyle d = "" then "" else ", Style: " ++ finalStyle d)
  ++ (if finalColour d = "" then "" else ", Colour: " ++ finalColour d)

/-- Modelled from the spec: the request body rule with image_type Featured
Image for blog and Infographic for infographic, and the spec image detail. -/
def payloadSpec (t : TemplateType) (d : ItemData) : Payload :=
  ⟨match t with
    | TemplateType.blog => "Featured Image"
    | TemplateType.infographic => "Infographic",
   imageDetailSpec t d⟩

/-! ## Persisted bulk-processing state (useBulkProcessing) -/

/-- The parsed stored snapshot, mirroring the JSON fields read by the
rehydration logic: the two item-id lists may be absent (they are
defaulted on restore) and startTime may be null. Timestamps are Int
milliseconds; ids are Nat. -/
structure StoredState where
  isProcessing : Bool
  currentProcessing : Option Nat
  processedCount : Nat
  totalCount : Nat
  startTime : Option Int
  bulkProcessingId : Option Nat
  imageType : Option TemplateType
  completedItems : Option (List Nat)
  failedItems : Option (List Nat)
deriving DecidableEq, Repr

/-- The in-memory BulkProcessingState of the hook. -/
structure BulkProcessingState where
  isProcessing : Bool
  currentProcessing : Option Nat
  processedCount : Nat
  totalCount : Nat
  startTime : Option Int
  bulkProcessingId : Option Nat
  imageType : Option TemplateType
  completedItems : List Nat
  failedItems : List Nat
deriving DecidableEq, Repr

/-- getInitialState of the hook: no active run. -/
def getInitialState : BulkProcessingState :=
  ⟨false, none, 0, 0, none, none, none, [], []⟩

/-- The staleness test of the rehydration logic: a snapshot with a
start time is stale when now minus that time strictly exceeds 7200000
milliseconds; a snapshot without a start time is never stale. -/
def isStaleAt (now : Int) (startTime : Option Int) : Bool :=
  match startTime with
  | none => false
  | some t => now - t > 7200000

/-- The completion test of the rehydration logic: processedCount at
least totalCount with a positive totalCount. -/
def isCompletedSnapshot (p : StoredState) : Bool :=
  p.processedCount ≥ p.totalCount && p.totalCount > 0

/-- The restored state: the parsed snapshot with the item-id lists
defaulted to empty when absent. -/
def restoreState (p : StoredState) : BulkProcessingState :=
  ⟨p.isProcessing, p.currentProcessing, p.processedCount, p.totalCount,
   p.startTime, p.bulkProcessingId, p.imageType,
   p.completedItems.getD [], p.failedItems.getD []⟩

/-- The useState rehydration step run at hook creation. The stored value is modelled as
none when nothing is stored, some none when the stored string fails to
parse, and some (some p) for a parsed snapshot p. The Bool of the result
records whether the stored snapshot was removed. A parse failure or a
stale or completed snapshot yields the initial state with the snapshot
removed; otherwise the snapshot is restored. -/
def rehydrate (saved : Option (Option StoredState)) (now : Int) :
    BulkProcessingState × Bool :=
  match saved with
  | none => (getInitialState, false)
  | some none => (getInitialState, true)
  | some (some p) =>
    if isStaleAt now p.startTime || isCompletedSnapshot p then
      (getInitialState, true)
    else
      (restoreState p, false)

/-- saveState of the hook: when the new state is complete (processedCount
at least a positive totalCount) and not processing, the stored snapshot is
removed (result none); otherwise the new state is written. -/
def saveState (s : BulkProcessingState) : Option BulkProcessingState :=
  if s.processedCount ≥ s.totalCount && s.totalCount > 0 && !s.isProcessing then
    none
  else
    some s

/-! ## Theorems -/

/-- C1: for every list of queue items and every balance, starting a run
computes batchCost as the number of valid items times the per-item cost
(5 for blog, 10 for infographic), and when the balance is below batchCost
the start fails with the insufficient-credits error, performs no debit,
and leaves the balance (and the items) unchanged. -/
theorem startRun_insufficient_credits (items : List BulkItem)
    (t : TemplateType) (credits : Nat) (oracle : Nat → WebhookResult) :
    batchCost items t = (validItems items).length * CREDIT_COSTS t ∧
    CREDIT_COSTS TemplateType.blog = 5 ∧
    CREDIT_COSTS TemplateType.infographic = 10 ∧
    (credits < batchCost items t →
      processBulkItems items t credits oracle =
        ⟨some StartError.insufficientCredits, items, credits, 0, [], none⟩) := by
  refine ⟨rfl, rfl, rfl, fun h => ?_⟩
  have hne : ¬ (validItems items).length = 0 := by
    intro h0
    rw [batchCost, h0, Nat.zero_mul] at h
    exact Nat.not_lt_zero credits h
  rw [batchCost] at h
  simp only [processBulkItems, if_neg hne, if_pos h]

/-- Witness for C1: one valid infographic item against a balance of 5,
below the batch cost of 10. -/
theorem startRun_insufficient_credits_witness :
    processBulkItems
      [⟨1, TemplateType.infographic, ⟨"", "", "stats", "", "", "", ""⟩,
        ItemStatus.pending, none, none⟩]
      TemplateType.infographic 5 (fun _ => WebhookResult.ok "x") =
      ⟨some StartError.insufficientCredits,
       [⟨1, TemplateType.infographic, ⟨"", "", "stats", "", "", "", ""⟩,
         ItemStatus.pending, none, none⟩], 5, 0, [], none⟩ :=
  (startRun_insufficient_credits _ TemplateType.infographic 5
    (fun _ => WebhookResult.ok "x")).2.2.2 (by decide)

/-- C3: when no item passes the required-field validity check, the valid
set is empty and the start fails with the no-valid-items error, with no
debit and no state change. -/
theorem startRun_no_valid_items (items : List BulkItem) (t : TemplateType)
    (credits : Nat) (oracle : Nat → WebhookResult)
    (h : ∀ it ∈ items, isValidItem it = false) :
    validItems items = [] ∧
    processBulkItems items t credits oracle =
      ⟨some StartError.noValidItems, items, credits, 0, [], none⟩ := by
  have hv : validItems items = [] := by
    rw [validItems, List.filter_eq_nil_iff]
    intro a ha
    simp [h a ha]
  refine ⟨hv, ?_⟩
  rw [processBulkItems, hv]
  rfl

/-- Witness for C3: a single blog item with blank title and intro. -/
theorem startRun_no_valid_items_witness :
    processBulkItems
      [⟨7, TemplateType.blog, ⟨"", " ", "", "", "", "", ""⟩,
        ItemStatus.pending, none, none⟩]
      TemplateType.blog 40 (fun _ => WebhookResult.ok "x") =
      ⟨some StartError.noValidItems,
       [⟨7, TemplateType.blog, ⟨"", " ", "", "", "", "", ""⟩,
         ItemStatus.pending, none, none⟩], 40, 0, [], none⟩ :=
  (startRun_no_valid_items _ TemplateType.blog 40 (fun _ => WebhookResult.ok "x")
    (by decide)).2

/-- C10: the save operation removes the persisted snapshot, instead of
writing it, for every state with a positive totalCount, processedCount at
least totalCount and isProcessing false; consequently a stored snapshot is
never one of a completed, inactive run. -/
theorem saveState_clears_completed (s : BulkProcessingState) :
    (s.totalCount > 0 → s.processedCount ≥ s.totalCount →
      s.isProcessing = false → saveState s = none) ∧
    (∀ s' : BulkProcessingState, saveState s = some s' →
      ¬(s'.totalCount > 0 ∧ s'.processedCount ≥ s'.totalCount ∧
        s'.isProcessing = false)) := by
  constructor
  · intro h1 h2 h3
    rw [saveState, if_pos]
    simp [h1, h2, h3]
  · intro s' hs
    rw [saveState] at hs
    split at hs
    · exact absurd hs (by simp)
    · next hcond =>
      rintro ⟨a, b, c⟩
      apply hcond
      cases hs
      simp [a, b, c]

/-- Witness for C10: a completed inactive state is cleared, and a running
state is written back. -/
theorem saveState_clears_completed_witness :
    saveState ⟨false, none, 3, 3, some 0, some 1, some TemplateType.blog, [], []⟩
      = none :=
  (saveState_clears_completed
    ⟨false, none, 3, 3, some 0, some 1, some TemplateType.blog, [], []⟩).1
    (by decide) (by decide) (by decide)

/-- C7: rehydration restores a parsed snapshot exactly when it is neither
stale (strictly older than the 7200000 ms, i.e. two hour, threshold) nor
already complete (processedCount at least a positive totalCount); a stale
or complete snapshot, and a snapshot that fails to parse, are discarded in
favour of the initial no-active-run state, never treated as fatal. -/
theorem rehydrate_policy (p : StoredState) (now : Int) :
    ((isStaleAt now p.startTime || isCompletedSnapshot p) = false →
      rehydrate (some (some p)) now = (restoreState p, false)) ∧
    ((isStaleAt now p.startTime || isCompletedSnapshot p) = true →
      rehydrate (some (some p)) now = (getInitialState, true)) ∧
    rehydrate (some none) now = (getInitialState, true) ∧
    rehydrate none now = (getInitialState, false) ∧
    (∀ ts : Int, isStaleAt now (some ts) = decide (now - ts > 7200000)) ∧
    (7200000 : Int) = 2 * 60 * 60 * 1000 := by
  refine ⟨fun h => ?_, fun h => ?_, rfl, rfl, fun ts => rfl, by norm_num⟩
  · rw [rehydrate, if_neg (by simp [h])]
  · rw [rehydrate, if_pos h]

/-- Witness for C7: a fresh active snapshot is restored; the same snapshot
two hours and one millisecond later is discarded. -/
theorem rehydrate_policy_witness :
    rehydrate (some (some ⟨true, none, 1, 3, some 1000, some 5,
        some TemplateType.blog, some [4], none⟩)) 2000 =
      (⟨true, none, 1, 3, some 1000, some 5, some TemplateType.blog, [4], []⟩,
        false) ∧
    rehydrate (some (some ⟨true, none, 1, 3, some 1000, some 5,
        some TemplateType.blog, some [4], none⟩)) (1000 + 7200001) =
      (getInitialState, true) :=
  ⟨(rehydrate_policy _ 2000).1 (by decide),
   (rehydrate_policy _ (1000 + 7200001)).2.1 (by decide)⟩

/-- C9: while a run is active the field update is a no-op; otherwise the
item with the given id receives the sanitized field values and status
pending (in particular a previously failed item is reset to pending), and
all other items are unchanged. -/
theorem updateItemFields_spec (items : List BulkItem) (id : Nat)
    (d : ItemData) :
    updateItemFields true items id d = items ∧
    (∀ k : Nat, (updateItemFields false items id d)[k]? =
      (items[k]?).map fun it =>
        if it.id == id then
          { it with data := sanitizeItemData d, status := ItemStatus.pending }
        else it) ∧
    (∀ k : Nat, ∀ it : BulkItem, items[k]? = some it → it.id = id →
      it.status = ItemStatus.error →
      (updateItemFields false items id d)[k]? =
        some { it with data := sanitizeItemData d,
                       status := ItemStatus.pending }) := by
  refine ⟨rfl, fun k => ?_, fun k it hk hid _ => ?_⟩
  · rw [updateItemFields, if_neg (by simp), updateItemData, List.getElem?_map]
  · rw [updateItemFields, if_neg (by simp), updateItemData,
      List.getElem?_map, hk]
    simp [hid]

/-- Witness for C9: a failed item is reset to pending with sanitized data
by an edit outside a run. -/
theorem updateItemFields_spec_witness :
    updateItemFields true
      [⟨3, TemplateType.blog, ⟨"t", "i", "", "", "", "", ""⟩,
        ItemStatus.error, none, some "boom"⟩] 3
      ⟨"t ", "i", "", "", "", "", ""⟩ =
      [⟨3, TemplateType.blog, ⟨"t", "i", "", "", "", "", ""⟩,
        ItemStatus.error, none, some "boom"⟩] ∧
    (updateItemFields false
      [⟨3, TemplateType.blog, ⟨"t", "i", "", "", "", "", ""⟩,
        ItemStatus.error, none, some "boom"⟩] 3
      ⟨"t ", "i", "", "", "", "", ""⟩)[0]? =
      some ⟨3, TemplateType.blog,
        sanitizeItemData ⟨"t ", "i", "", "", "", "", ""⟩,
        ItemStatus.pending, none, some "boom"⟩ :=
  ⟨(updateItemFields_spec _ 3 _).1,
   (updateItemFields_spec _ 3 _).2.2 0
     ⟨3, TemplateType.blog, ⟨"t", "i", "", "", "", "", ""⟩,
       ItemStatus.error, none, some "boom"⟩
     (by decide) (by decide) (by decide)⟩

/-- A processed item always reaches a terminal status: completed on an
image, error on every failure. -/
theorem processItem_terminal (it : BulkItem) (r : WebhookResult) :
    (processItem it r).status = ItemStatus.completed ∨
    (processItem it r).status = ItemStatus.error := by
  cases r <;> simp [processItem]

/-- Items counted as terminal (completed or failed) in a list. -/
def terminalCount (items : List BulkItem) : Nat :=
  (items.filter fun it =>
    it.status == ItemStatus.completed || it.status == ItemStatus.error).length

/-- The loop over a list of all-pending items processes exactly the valid
ones: the final processedCount grows by the number of valid items, and the
number of items ending in a terminal status equals the number of valid
items, for every webhook oracle (failures included). -/
theorem processLoop_all_pending (oracle : Nat → WebhookResult)
    (items : List BulkItem) :
    ∀ i c : Nat, (∀ it ∈ items, it.status = ItemStatus.pending) →
      (processLoop oracle items i c).count = c + (validItems items).length ∧
      terminalCount (processLoop oracle items i c).items =
        (validItems items).length := by
  induction items with
  | nil => intro i c _; simp [processLoop, validItems, terminalCount]
  | cons it rest ih =>
    intro i c h
    have hit : it.status = ItemStatus.pending := h it (by simp)
    have hrest : ∀ x ∈ rest, x.status = ItemStatus.pending :=
      fun x hx => h x (by simp [hx])
    by_cases hv : isValidItem it = true
    · have ihp := ih (i + 1) (c + 1) hrest
      have hterm : ((processItem it (oracle it.id)).status ==
          ItemStatus.completed ||
          (processItem it (oracle it.id)).status == ItemStatus.error)
          = true := by
        rcases processItem_terminal it (oracle it.id) with h1 | h1 <;>
          rw [h1] <;> decide
      have hsp : shouldProcess it = true := by simp [shouldProcess, hit, hv]
      constructor
      · have h1 := ihp.1
        simp only [validItems] at h1 ⊢
        simp [processLoop, hsp, List.filter_cons_of_pos hv, h1]
        omega
      · have h2 := ihp.2
        simp only [validItems, terminalCount] at h2 ⊢
        simp [processLoop, hsp, List.filter_cons, hterm,
          List.filter_cons_of_pos hv, h2]
    · have ihp := ih (i + 1) c hrest
      have hsp : shouldProcess it = false := by simp [shouldProcess, hv]
      have hnt : (it.status == ItemStatus.completed ||
          it.status == ItemStatus.error) = false := by
        rw [hit]; decide
      constructor
      · have h1 := ihp.1
        simp only [validItems] at h1 ⊢
        simp [processLoop, hsp, List.filter_cons_of_neg hv, h1]
      · have h2 := ihp.2
        simp only [validItems, terminalCount] at h2 ⊢
        simp [processLoop, hsp, List.filter_cons, hnt,
          List.filter_cons_of_neg hv, h2]

/-- C2 counterexample: a single valid blog item whose status is already
completed (as left behind by an earlier run). The run starts over one
valid item and the debit is taken, but the loop skips the item, so the
final processedCount is 0, not 1. -/
theorem run_counts_counterexample :
    (validItems [⟨1, TemplateType.blog, ⟨"a", "b", "", "", "", "", ""⟩,
      ItemStatus.completed, none, none⟩]).length = 1 ∧
    (processBulkItems [⟨1, TemplateType.blog, ⟨"a", "b", "", "", "", "", ""⟩,
      ItemStatus.completed, none, none⟩] TemplateType.blog 100
      (fun _ => WebhookResult.ok "img")).error = none ∧
    (processBulkItems [⟨1, TemplateType.blog, ⟨"a", "b", "", "", "", "", ""⟩,
      ItemStatus.completed, none, none⟩] TemplateType.blog 100
      (fun _ => WebhookResult.ok "img")).count = 0 ∧
    (processBulkItems [⟨1, TemplateType.blog, ⟨"a", "b", "", "", "", "", ""⟩,
      ItemStatus.completed, none, none⟩] TemplateType.blog 100
      (fun _ => WebhookResult.ok "img")).count ≠ 1 := by
  refine ⟨by decide, by decide, by decide, by decide⟩

/-- C2 amended: for every run started over N valid items that completes
without cancellation, provided every item has status pending when the run
starts, the final processedCount equals N and the number of items ending
completed plus the number ending failed equals N exactly; an item failure
only moves that item to the failed status and the loop continues, for any
oracle. -/
theorem run_processes_all_valid_items (items : List BulkItem)
    (t : TemplateType) (credits : Nat) (oracle : Nat → WebhookResult)
    (hp : ∀ it ∈ items, it.status = ItemStatus.pending)
    (hrun : (processBulkItems items t credits oracle).error = none) :
    (processBulkItems items t credits oracle).count =
      (validItems items).length ∧
    terminalCount (processBulkItems items t credits oracle).items =
      (validItems items).length := by
  by_cases h0 : (validItems items).length = 0
  · exfalso
    simp only [processBulkItems, if_pos h0] at hrun
    exact Option.some_ne_none _ hrun
  · by_cases hc : credits < (validItems items).length * CREDIT_COSTS t
    · exfalso
      simp only [processBulkItems, if_neg h0, if_pos hc] at hrun
      exact Option.some_ne_none _ hrun
    · have hded : deductCredits credits
          ((validItems items).length * CREDIT_COSTS t) =
          some (credits - (validItems items).length * CREDIT_COSTS t) := by
        rw [deductCredits, if_neg hc]
      have hout : processBulkItems items t credits oracle =
          ⟨none, (processLoop oracle items 0 0).items,
           credits - (validItems items).length * CREDIT_COSTS t,
           (processLoop oracle items 0 0).count,
           (processLoop oracle items 0 0).trace,
           some (processLoop oracle items 0 0).count⟩ := by
        simp only [processBulkItems, if_neg h0, if_neg hc, hded]
      rw [hout]
      have hloop := processLoop_all_pending oracle items 0 0 hp
      exact ⟨by rw [hloop.1, Nat.zero_add], hloop.2⟩

/-- Witness for C2 amended: two pending blog items, one of which fails
over HTTP, still yield processedCount 2 with one completed and one failed
item. -/
theorem run_processes_all_valid_items_witness :
    (processBulkItems
      [⟨1, TemplateType.blog, ⟨"t1", "i1", "", "", "", "", ""⟩,
        ItemStatus.pending, none, none⟩,
       ⟨2, TemplateType.blog, ⟨"t2", "i2", "", "", "", "", ""⟩,
        ItemStatus.pending, none, none⟩] TemplateType.blog 12
      (fun id => if id = 1 then WebhookResult.ok "QUJD"
        else WebhookResult.httpError 500)).count = 2 ∧
    terminalCount (processBulkItems
      [⟨1, TemplateType.blog, ⟨"t1", "i1", "", "", "", "", ""⟩,
        ItemStatus.pending, none, none⟩,
       ⟨2, TemplateType.blog, ⟨"t2", "i2", "", "", "", "", ""⟩,
        ItemStatus.pending, none, none⟩] TemplateType.blog 12
      (fun id => if id = 1 then WebhookResult.ok "QUJD"
        else WebhookResult.httpError 500)).items = 2 := by
  have h := run_processes_all_valid_items
    [⟨1, TemplateType.blog, ⟨"t1", "i1", "", "", "", "", ""⟩,
      ItemStatus.pending, none, none⟩,
     ⟨2, TemplateType.blog, ⟨"t2", "i2", "", "", "", "", ""⟩,
      ItemStatus.pending, none, none⟩] TemplateType.blog 12
    (fun id => if id = 1 then WebhookResult.ok "QUJD"
      else WebhookResult.httpError 500)
    (by decide) (by decide)
  exact ⟨by rw [h.1]; decide, by rw [h.2]; decide⟩

/-- C4: the failing two-item run of the spec scenario, evaluated on the
code. One item succeeds (image QUJD) and one fails with HTTP 500; the
final items hold exactly one completed item, yet the aggregate completion
notification carries imageCount 2 (the processedCount, failures included),
where the claim requires the completed count 1. -/
theorem completion_notification_counts_processed :
    (processBulkItems
      [⟨1, TemplateType.blog, ⟨"t1", "i1", "", "", "", "", ""⟩,
        ItemStatus.pending, none, none⟩,
       ⟨2, TemplateType.blog, ⟨"t2", "i2", "", "", "", "", ""⟩,
        ItemStatus.pending, none, none⟩] TemplateType.blog 12
      (fun id => if id = 1 then WebhookResult.ok "QUJD"
        else WebhookResult.httpError 500)).completionImageCount = some 2 ∧
    ((processBulkItems
      [⟨1, TemplateType.blog, ⟨"t1", "i1", "", "", "", "", ""⟩,
        ItemStatus.pending, none, none⟩,
       ⟨2, TemplateType.blog, ⟨"t2", "i2", "", "", "", "", ""⟩,
        ItemStatus.pending, none, none⟩] TemplateType.blog 12
      (fun id => if id = 1 then WebhookResult.ok "QUJD"
        else WebhookResult.httpError 500)).items.filter
        (fun it => it.status == ItemStatus.completed)).length = 1 ∧
    (some 2 : Option Nat) ≠ some 1 := by
  refine ⟨by decide, by decide, by decide⟩

/-- The trace rule of the amended C8: every processed item contributes the
fixed 2000 ms delay followed by its webhook call. -/
def delayedCalls : List BulkItem → List Event
  | [] => []
  | it :: rest =>
    if shouldProcess it then
      Event.delay 2000 :: Event.call it.id :: delayedCalls rest
    else
      delayedCalls rest

/-- The trace rule of the amended C8 for a loop starting at index 0: the
head item, when processed, is called without a delay; every later
processed item is preceded by the delay. -/
def traceFromHead : List BulkItem → List Event
  | [] => []
  | it :: rest =>
    if shouldProcess it then Event.call it.id :: delayedCalls rest
    else delayedCalls rest

/-- At a positive starting index every processed item is preceded by the
delay. -/
theorem processLoop_trace_pos (oracle : Nat → WebhookResult)
    (items : List BulkItem) :
    ∀ i c : Nat, 0 < i →
      (processLoop oracle items i c).trace = delayedCalls items := by
  induction items with
  | nil => intro i c _; rfl
  | cons it rest ih =>
    intro i c hi
    by_cases hp : shouldProcess it = true
    · simp only [processLoop, hp, if_true, delayedCalls, if_pos hi]
      rw [ih (i + 1) (c + 1) (Nat.succ_pos i)]
      rfl
    · simp only [processLoop, hp, Bool.false_eq_true, if_false, delayedCalls]
      rw [ih (i + 1) c (Nat.succ_pos i)]

/-- C8 counterexample: an invalid item followed by one valid pending item.
Exactly one item is processed — the first processed item of the run — and
its webhook call is nevertheless preceded by the 2000 ms delay, because
the delay test looks at the index in the full item array. -/
theorem first_processed_delay_counterexample :
    (processLoop (fun _ => WebhookResult.ok "img")
      [⟨1, TemplateType.blog, ⟨"", "", "", "", "", "", ""⟩,
        ItemStatus.pending, none, none⟩,
       ⟨2, TemplateType.blog, ⟨"t", "i", "", "", "", "", ""⟩,
        ItemStatus.pending, none, none⟩] 0 0).count = 1 ∧
    (processLoop (fun _ => WebhookResult.ok "img")
      [⟨1, TemplateType.blog, ⟨"", "", "", "", "", "", ""⟩,
        ItemStatus.pending, none, none⟩,
       ⟨2, TemplateType.blog, ⟨"t", "i", "", "", "", "", ""⟩,
        ItemStatus.pending, none, none⟩] 0 0).trace =
      [Event.delay 2000, Event.call 2] := by
  refine ⟨by decide, by decide⟩

/-- C8 amended: the 2000 ms inter-request delay is awaited before the
webhook call of every processed item whose index in the full item list is
positive; only a processed item at the head of the list is called without
the delay. In particular a run whose loop starts past index 0 delays
every call, and a full run from index 0 follows traceFromHead. -/
theorem delay_before_every_call_except_head (items : List BulkItem)
    (oracle : Nat → WebhookResult) (c : Nat) :
    (∀ i : Nat, 0 < i →
      (processLoop oracle items i c).trace = delayedCalls items) ∧
    (processLoop oracle items 0 c).trace = traceFromHead items := by
  refine ⟨fun i hi => processLoop_trace_pos oracle items i c hi, ?_⟩
  cases items with
  | nil => rfl
  | cons it rest =>
    by_cases hp : shouldProcess it = true
    · simp only [processLoop, hp, if_true, traceFromHead, Nat.lt_irrefl,
        if_false]
      rw [processLoop_trace_pos oracle rest 1 (c + 1) Nat.one_pos]
      rfl
    · simp only [processLoop, hp, Bool.false_eq_true, if_false, traceFromHead]
      rw [processLoop_trace_pos oracle rest 1 c Nat.one_pos]

/-- Witness for C8 amended: from index 1 both pending valid items get the
delay before their calls; from index 0 the head item is called first
without a delay. -/
theorem delay_before_every_call_except_head_witness :
    (processLoop (fun _ => WebhookResult.ok "img")
      [⟨1, TemplateType.blog, ⟨"t", "i", "", "", "", "", ""⟩,
        ItemStatus.pending, none, none⟩,
       ⟨2, TemplateType.blog, ⟨"u", "j", "", "", "", "", ""⟩,
        ItemStatus.pending, none, none⟩] 1 0).trace =
      [Event.delay 2000, Event.call 1, Event.delay 2000, Event.call 2] ∧
    (processLoop (fun _ => WebhookResult.ok "img")
      [⟨1, TemplateType.blog, ⟨"t", "i", "", "", "", "", ""⟩,
        ItemStatus.pending, none, none⟩,
       ⟨2, TemplateType.blog, ⟨"u", "j", "", "", "", "", ""⟩,
        ItemStatus.pending, none, none⟩] 0 0).trace =
      [Event.call 1, Event.delay 2000, Event.call 2] := by
  have h := delay_before_every_call_except_head
    [⟨1, TemplateType.blog, ⟨"t", "i", "", "", "", "", ""⟩,
      ItemStatus.pending, none, none⟩,
     ⟨2, TemplateType.blog, ⟨"u", "j", "", "", "", "", ""⟩,
      ItemStatus.pending, none, none⟩] (fun _ => WebhookResult.ok "img") 0
  exact ⟨by rw [h.1 1 (by decide)]; decide, by rw [h.2]; decide⟩

/-- C6: for every item the built webhook payload equals the spec payload:
image_type is Featured Image for blog and Infographic for infographic, and
image_detail is the template base string with the Style suffix appended
exactly when the effective style is set and the Colour suffix appended
exactly when the effective colour is set. -/
theorem payload_matches_spec (t : TemplateType) (d : ItemData) :
    buildPayload t d = payloadSpec t d := by
  have hdetail : imageDetail t d = imageDetailSpec t d := by
    rw [imageDetail.eq_def, imageDetailSpec.eq_def]
    by_cases hs : finalStyle d = "" <;> by_cases hc : finalColour d = "" <;>
      simp [hs, hc, String.append_assoc]
  cases t <;> simp [buildPayload, payloadSpec, hdetail]

/-- The newline, carriage return and tab replacements preserve the
whitespace class of a character. -/
theorem wsMap_preserves (c : Char) :
    isJsWs (tabToSpace (crToSpace (nlToSpace c))) = isJsWs c := by
  by_cases h1 : c = '\n'
  · subst h1; decide
  · by_cases h2 : c = '\r'
    · subst h2; decide
    · by_cases h3 : c = '\t'
      · subst h3; decide
      · rw [nlToSpace, if_neg h1, crToSpace, if_neg h2, tabToSpace, if_neg h3]

/-- The newline, carriage return and tab replacements leave a
non-whitespace character unchanged. -/
theorem wsMap_id (c : Char) (h : isJsWs c = false) :
    tabToSpace (crToSpace (nlToSpace c)) = c := by
  simp only [isJsWs, Bool.or_eq_false_iff, decide_eq_false_iff_not] at h
  obtain ⟨⟨⟨⟨⟨_, _⟩, hnl⟩, hcr⟩, _⟩, _⟩ := h
  rw [nlToSpace, if_neg hnl, crToSpace, if_neg hcr, tabToSpace, if_neg]
  intro hq
  exact absurd hq (by assumption)

/-- Collapsing whitespace runs is unchanged by a character map that
preserves the whitespace class and fixes non-whitespace characters. -/
theorem collapseWs_map (g : Char → Char)
    (hws : ∀ c, isJsWs (g c) = isJsWs c)
    (hid : ∀ c, isJsWs c = false → g c = c) :
    ∀ l : List Char, collapseWs (l.map g) = collapseWs l
  | [] => rfl
  | [c] => by
    by_cases h : isJsWs c = true
    · simp [collapseWs, hws, h]
    · have h' : isJsWs c = false := by simpa using h
      simp [collapseWs, hws, h', hid c h']
  | c :: d :: rest => by
    have ih := collapseWs_map g hws hid (d :: rest)
    simp only [List.map_cons] at ih ⊢
    by_cases hc : isJsWs c = true
    · by_cases hd : isJsWs d = true
      · simp [collapseWs, hws, hc, hd, ih]
      · have hd' : isJsWs d = false := by simpa using hd
        simp [collapseWs, hws, hc, hd', ih]
    · have hc' : isJsWs c = false := by simpa using hc
      simp [collapseWs, hws, hc', hid c hc', ih]

/-- The explicit newline, carriage return and tab replacements performed
before the whitespace collapse do not change its result. -/
theorem collapseWs_wsMaps (l : List Char) :
    collapseWs (((l.map nlToSpace).map crToSpace).map tabToSpace) =
      collapseWs l := by
  rw [List.map_map, List.map_map]
  exact collapseWs_map _ (fun c => wsMap_preserves c) (fun c h => wsMap_id c h) l

/-- C5: for every input string the sanitizer agrees with the spec
description (replace double quotes with single quotes, remove backslashes,
collapse newline, carriage return, tab and whitespace runs to single
spaces, trim); in particular the concrete title with quotes and a newline
sanitizes to the expected string. -/
theorem sanitizeText_matches_spec :
    (∀ s : String, sanitizeText s = sanitizeTextSpec s) ∧
    sanitizeText "A \"Big\" Deal\nToday" = "A \x27Big\x27 Deal Today" := by
  constructor
  · intro s
    by_cases he : s.isEmpty = true
    · rw [sanitizeText, if_pos he]
      rw [String.isEmpty_iff] at he
      subst he
      rfl
    · rw [sanitizeText, if_neg he, sanitizeTextSpec, sanitizeList,
        collapseWs_wsMaps]
  · decide

end ImageGen
